import Mathlib

/-!
Verification development for the paperless AI ingestion pipeline.

Shallow embedding of the core pipeline code:
  scripts/ai_watchdog.py          (producer, GPU worker, recovery)
  scripts/ai_post_consume.py      (downstream sidecar lookup)
  scripts/modules/llm_client.py   (inference routing and retries)
  scripts/modules/duplicate_detector.py (duplicate confirmation engine)
  scripts/modules/chroma_client.py      (vector index wrapper)
  scripts/modules/document_optimizer.py (page normalisation)

External effects (HTTP calls, the filesystem, the vector index) are
modelled as explicit oracles / state that the embedded functions consume,
so every definition is executable and every run is a pure value.
-/

set_option maxRecDepth 100000

/- ───────────────────────── llm_client.py ───────────────────────── -/

/-- Configuration fields of LLMClient relevant to routing
(llm_client.py, constructor). -/
structure LLMConfig where
  host : String
  cpu_host : String
  vision_model : String
  summary_model : String
deriving DecidableEq

/-- Outcome of one HTTP POST to the inference backend: a 200 reply with a
response body, a non-200 status code, or a connection-level exception. -/
inductive HttpOutcome where
  | success (text : String)
  | status (code : Nat)
  | connError (msg : String)
deriving DecidableEq

/-- Environment of one `LLMClient.generate` call: the state of the GPU-busy
flag file as observed at each attempt, and the HTTP outcome of each attempt. -/
structure GenWorld where
  gpu_busy_flag : Nat → Bool
  http : Nat → HttpOutcome

/-- `delays = [5, 10, 15]` (llm_client.py line 29). -/
def retry_delays : List Nat := [5, 10, 15]

/-- `max_attempts = len(delays) + 1` (llm_client.py line 30). -/
def max_attempts : Nat := retry_delays.length + 1

/-- One outgoing request: which host and which model it was sent to. -/
structure RequestLog where
  target_host : String
  target_model : String
deriving DecidableEq

/-- The routing decision of `LLMClient.generate` (llm_client.py lines 37-54):
vision requests always go to the accelerated host with the vision model;
text requests go there too while the GPU-busy flag file is absent, and to
the CPU host with the summary model while it exists. -/
def route_request (cfg : LLMConfig) (has_images : Bool) (flag_exists : Bool) :
    RequestLog :=
  if has_images then
    { target_host := cfg.host, target_model := cfg.vision_model }
  else if flag_exists = false then
    { target_host := cfg.host, target_model := cfg.vision_model }
  else
    { target_host := cfg.cpu_host, target_model := cfg.summary_model }

/-- The Python function `str.strip()` as used on the response body
(llm_client.py line 78): drop leading and trailing whitespace. -/
def pyStrip (s : String) : String :=
  String.mk (((s.data.dropWhile Char.isWhitespace).reverse.dropWhile
    Char.isWhitespace).reverse)

/-- Result of a full `generate` call: the returned string, the trace of
requests actually issued, and the backoff sleeps performed between them. -/
structure GenRun where
  result : String
  requests : List RequestLog
  sleeps : List Nat
deriving DecidableEq

/-- The retry loop of `LLMClient.generate` (llm_client.py lines 32-99),
unrolled over the attempt counter; the second argument is the number of
loop iterations still available (`max_attempts - attempt`). -/
def generate_attempts (cfg : LLMConfig) (has_images : Bool) (w : GenWorld) :
    Nat → Nat → GenRun
  | _, 0 => { result := "", requests := [], sleeps := [] }
  | attempt, rem + 1 =>
    let req := route_request cfg has_images (w.gpu_busy_flag attempt)
    match w.http attempt with
    | .success t => { result := pyStrip t, requests := [req], sleeps := [] }
    | .status code =>
      if code = 500 then
        if attempt < retry_delays.length then
          let rest := generate_attempts cfg has_images w (attempt + 1) rem
          { result := rest.result, requests := req :: rest.requests,
            sleeps := retry_delays.getD attempt 0 :: rest.sleeps }
        else
          { result := "", requests := [req], sleeps := [] }
      else
        { result := "", requests := [req], sleeps := [] }
    | .connError _ =>
      if attempt < retry_delays.length then
        let rest := generate_attempts cfg has_images w (attempt + 1) rem
        { result := rest.result, requests := req :: rest.requests,
          sleeps := retry_delays.getD attempt 0 :: rest.sleeps }
      else
        { result := "", requests := [req], sleeps := [] }

/-- `LLMClient.generate` (llm_client.py lines 27-99). -/
def LLMClient_generate (cfg : LLMConfig) (has_images : Bool) (w : GenWorld) :
    GenRun :=
  generate_attempts cfg has_images w 0 max_attempts

/-- A transient failure in the sense of the retry policy: a connection
exception or an HTTP 500 reply (llm_client.py lines 79, 91). -/
def is_transient : HttpOutcome → Bool
  | .success _ => false
  | .status code => code == 500
  | .connError _ => true

/-- Helper: every request issued by the retry loop starting at attempt `a`
is routed according to the flag state observed at its own attempt index. -/
theorem generate_attempts_requests (cfg : LLMConfig) (img : Bool) (w : GenWorld) :
    ∀ r a i, i < (generate_attempts cfg img w a r).requests.length →
      (generate_attempts cfg img w a r).requests.getD i
          { target_host := "", target_model := "" } =
        route_request cfg img (w.gpu_busy_flag (a + i)) := by
  intro r
  induction r with
  | zero =>
    intro a i hi
    simp [generate_attempts] at hi
  | succ n ih =>
    intro a i hi
    simp only [generate_attempts] at hi ⊢
    cases hw : w.http a with
    | success t =>
      simp only [hw] at hi ⊢
      simp at hi
      subst hi
      simp
    | status code =>
      simp only [hw] at hi ⊢
      by_cases hc : code = 500
      · simp only [hc, if_true] at hi ⊢
        by_cases ha : a < retry_delays.length
        · simp only [if_pos ha] at hi ⊢
          cases i with
          | zero => simp
          | succ j =>
            simp only [List.getD_cons_succ]
            have hj : j < (generate_attempts cfg img w (a + 1) n).requests.length := by
              simpa using hi
            have := ih (a + 1) j hj
            rw [show a + (j + 1) = a + 1 + j by omega]
            exact this
        · simp only [if_neg ha] at hi ⊢
          simp at hi
          subst hi
          simp
      · simp only [if_neg hc] at hi ⊢
        simp at hi
        subst hi
        simp
    | connError m =>
      simp only [hw] at hi ⊢
      by_cases ha : a < retry_delays.length
      · simp only [if_pos ha] at hi ⊢
        cases i with
        | zero => simp
        | succ j =>
          simp only [List.getD_cons_succ]
          have hj : j < (generate_attempts cfg img w (a + 1) n).requests.length := by
            simpa using hi
          have := ih (a + 1) j hj
          rw [show a + (j + 1) = a + 1 + j by omega]
          exact this
      · simp only [if_neg ha] at hi ⊢
        simp at hi
        subst hi
        simp

/-- Helper: dropping the consumed prefix of the backoff schedule commutes
with taking its head entry. -/
theorem retry_delays_drop (a : Nat) (h : a < retry_delays.length) :
    retry_delays.getD a 0 :: retry_delays.drop (a + 1) = retry_delays.drop a := by
  have h3 : a < 3 := by simpa [retry_delays] using h
  interval_cases a <;> rfl

/-- Helper: if every attempt fails transiently, the loop starting at attempt
`a` returns the empty string after issuing all remaining requests, sleeping
the remaining backoff delays. -/
theorem generate_attempts_transient (cfg : LLMConfig) (img : Bool) (w : GenWorld) :
    ∀ r a, a + r = max_attempts →
    (∀ i, i < max_attempts → is_transient (w.http i) = true) →
    (generate_attempts cfg img w a r).result = "" ∧
    (generate_attempts cfg img w a r).requests.length = r ∧
    (generate_attempts cfg img w a r).sleeps = retry_delays.drop a := by
  intro r
  induction r with
  | zero =>
    intro a ha h
    have ha4 : a = 4 := by simpa [max_attempts, retry_delays] using ha
    subst ha4
    refine ⟨rfl, rfl, ?_⟩
    rfl
  | succ n ih =>
    intro a ha h
    have hm : max_attempts = 4 := rfl
    have ht := h a (by omega)
    cases hw : w.http a with
    | success t =>
      rw [hw] at ht
      simp [is_transient] at ht
    | status code =>
      rw [hw] at ht
      simp [is_transient] at ht
      by_cases ha3 : a < retry_delays.length
      · obtain ⟨h1, h2, h3⟩ := ih (a + 1) (by omega) h
        simp only [generate_attempts, hw, ht, if_true, if_pos ha3]
        refine ⟨h1, by simp [h2], ?_⟩
        simp only [h3]
        exact retry_delays_drop a ha3
      · have haeq : a = 3 := by
          simp [retry_delays] at ha3
          omega
        have hn : n = 0 := by omega
        subst haeq
        subst hn
        simp [generate_attempts, hw, ht, retry_delays]
    | connError m =>
      by_cases ha3 : a < retry_delays.length
      · obtain ⟨h1, h2, h3⟩ := ih (a + 1) (by omega) h
        simp only [generate_attempts, hw, if_pos ha3]
        refine ⟨h1, by simp [h2], ?_⟩
        simp only [h3]
        exact retry_delays_drop a ha3
      · have haeq : a = 3 := by
          simp [retry_delays] at ha3
          omega
        have hn : n = 0 := by omega
        subst haeq
        subst hn
        simp [generate_attempts, hw, retry_delays]

/-- Helper: if the attempts before `k` fail transiently and attempt `k`
succeeds with body `t`, the loop returns the trimmed body after sleeping
exactly the delays consumed by those earlier attempts. -/
theorem generate_attempts_success (cfg : LLMConfig) (img : Bool) (w : GenWorld) :
    ∀ r a k t, a + r = max_attempts → a ≤ k → k < max_attempts →
    (∀ j, a ≤ j → j < k → is_transient (w.http j) = true) →
    w.http k = HttpOutcome.success t →
    (generate_attempts cfg img w a r).result = pyStrip t ∧
    (generate_attempts cfg img w a r).sleeps = (retry_delays.drop a).take (k - a) := by
  intro r
  induction r with
  | zero =>
    intro a k t ha hak hk h hs
    have hm : max_attempts = 4 := rfl
    omega
  | succ n ih =>
    intro a k t ha hak hk h hs
    have hm : max_attempts = 4 := rfl
    by_cases hake : a = k
    · subst hake
      simp only [generate_attempts, hs]
      exact ⟨by simp, by simp⟩
    · have halt : a < k := by omega
      have ha3 : a < retry_delays.length := by
        simp only [retry_delays, List.length_cons, List.length_nil]
        omega
      have ht := h a (Nat.le_refl a) halt
      have hstep : retry_delays.getD a 0 :: (retry_delays.drop (a + 1)).take (k - (a + 1)) =
          (retry_delays.drop a).take (k - a) := by
        rw [← retry_delays_drop a ha3]
        rw [show k - a = (k - (a + 1)) + 1 by omega]
        rfl
      cases hw : w.http a with
      | success t2 =>
        rw [hw] at ht
        simp [is_transient] at ht
      | status code =>
        rw [hw] at ht
        simp [is_transient] at ht
        obtain ⟨h1, h2⟩ := ih (a + 1) k t (by omega) (by omega) hk
          (fun j hj1 hj2 => h j (by omega) hj2) hs
        simp only [generate_attempts, hw, ht, if_true, if_pos ha3]
        refine ⟨h1, ?_⟩
        simp only [h2]
        exact hstep
      | connError m =>
        obtain ⟨h1, h2⟩ := ih (a + 1) k t (by omega) (by omega) hk
          (fun j hj1 hj2 => h j (by omega) hj2) hs
        simp only [generate_attempts, hw, if_pos ha3]
        refine ⟨h1, ?_⟩
        simp only [h2]
        exact hstep

/-- C5: for every call to `LLMClient.generate`, each issued request is
routed by the table of llm_client.py lines 37-54: with images it goes to
the primary host with the vision model regardless of the GPU-busy flag;
without images it goes to the primary host with the vision model when the
flag file is absent at that attempt, and to the fallback CPU host with the
summary model when the flag file exists. -/
theorem llm_generate_routing (cfg : LLMConfig) (img : Bool) (w : GenWorld) :
    ∀ i, i < (LLMClient_generate cfg img w).requests.length →
      (LLMClient_generate cfg img w).requests.getD i
          { target_host := "", target_model := "" } =
        (if img then { target_host := cfg.host, target_model := cfg.vision_model }
         else if w.gpu_busy_flag i = false then
           { target_host := cfg.host, target_model := cfg.vision_model }
         else
           { target_host := cfg.cpu_host, target_model := cfg.summary_model }) := by
  intro i hi
  have h := generate_attempts_requests cfg img w max_attempts 0 i
    (by simpa [LLMClient_generate] using hi)
  simpa [LLMClient_generate, route_request] using h

/-- Sample client configuration used by concrete witnesses. -/
def sampleCfg : LLMConfig :=
  { host := "gpu-host", cpu_host := "cpu-host",
    vision_model := "vision", summary_model := "summary" }

/-- Environment in which the backend is down: the GPU-busy flag is set and
every HTTP POST raises a connection error. -/
def sampleWorldDown : GenWorld :=
  { gpu_busy_flag := fun _ => true, http := fun _ => HttpOutcome.connError "refused" }

/-- Environment in which the first HTTP POST succeeds. -/
def sampleWorldOk : GenWorld :=
  { gpu_busy_flag := fun _ => false, http := fun _ => HttpOutcome.success " hello " }

/-- Witness for C5 at a concrete input: a text request with the busy flag
set is sent to the CPU host with the summary model. -/
theorem llm_generate_routing_witness :
    (LLMClient_generate sampleCfg false sampleWorldDown).requests.getD 0
        { target_host := "", target_model := "" } =
      { target_host := "cpu-host", target_model := "summary" } := by
  have h := llm_generate_routing sampleCfg false sampleWorldDown 0 (by decide)
  simpa [sampleCfg, sampleWorldDown] using h

/-- C6: every generate call retries transient failures (connection error or
HTTP 500) with the fixed backoff schedule 5 s, 10 s, 15 s — at most four
attempts in total — and returns the empty string after the last failed
attempt instead of raising; a successful attempt returns the backend response text
(trimmed), having slept only the delays already consumed. -/
theorem llm_generate_retry_policy :
    (∀ cfg img w, (∀ i, i < max_attempts → is_transient (w.http i) = true) →
      (LLMClient_generate cfg img w).result = "" ∧
      (LLMClient_generate cfg img w).requests.length = 4 ∧
      (LLMClient_generate cfg img w).sleeps = [5, 10, 15]) ∧
    (∀ cfg img w k t, k < max_attempts →
      (∀ j, j < k → is_transient (w.http j) = true) →
      w.http k = HttpOutcome.success t →
      (LLMClient_generate cfg img w).result = pyStrip t ∧
      (LLMClient_generate cfg img w).sleeps = retry_delays.take k) := by
  constructor
  · intro cfg img w h
    have h2 := generate_attempts_transient cfg img w max_attempts 0 rfl h
    simpa [LLMClient_generate, retry_delays] using h2
  · intro cfg img w k t hk h hs
    have h2 := generate_attempts_success cfg img w max_attempts 0 k t rfl
      (Nat.zero_le k) hk (fun j _ hj => h j hj) hs
    simpa [LLMClient_generate] using h2

/-- Witness for C6 at concrete inputs: with the backend down the call
returns the empty string after sleeping 5, 10 and 15 seconds; with a
healthy backend the body of the first attempt is returned. -/
theorem llm_generate_retry_policy_witness :
    (LLMClient_generate sampleCfg true sampleWorldDown).result = "" ∧
    (LLMClient_generate sampleCfg true sampleWorldDown).sleeps = [5, 10, 15] ∧
    (LLMClient_generate sampleCfg true sampleWorldOk).result = "hello" := by
  refine ⟨?_, ?_, ?_⟩
  · exact (llm_generate_retry_policy.1 sampleCfg true sampleWorldDown (by decide)).1
  · exact (llm_generate_retry_policy.1 sampleCfg true sampleWorldDown (by decide)).2.2
  · have h := (llm_generate_retry_policy.2 sampleCfg true sampleWorldOk 0 " hello "
      (by decide) (fun j hj => by omega) rfl).1
    rw [h]
    rfl

/- ──────────────── duplicate_detector.py / chroma_client.py ──────────────── -/

/-- A similarity candidate as produced by `ChromaClient.find_similar`
(chroma_client.py lines 115-122). -/
structure Candidate where
  id : Nat
  similarity : ℚ
deriving DecidableEq

/-- A paperless document as seen by the detector: only its `content` field
is consulted (duplicate_detector.py line 60). -/
structure PaperDoc where
  content : String
deriving DecidableEq

/-- Configuration of the duplicate detector module
(duplicate_detector.py lines 15, 34). -/
structure DupConfig where
  enabled : Bool
  threshold : ℚ

/-- The regex-based pure text analyses of duplicate_detector.py
(`_extract_dates` lines 148-180, `_extract_features` lines 182-209, and the
lowercased word sets of length > 2 built in `_check_word_similarity` lines
213-214), taken as parameters of the embedding: the claims under study
depend only on how their results are combined, not on the regexes. -/
structure Extractors where
  extract_dates : String → Finset String
  extract_features : String → Finset String
  word_set : String → Finset String

/-- `DuplicateDetector.calculate_jaccard` (duplicate_detector.py lines
220-226): 0 when both sets are empty, else intersection over union. -/
def calculate_jaccard (set_a set_b : Finset String) : ℚ :=
  if set_a = ∅ ∧ set_b = ∅ then 0
  else if (set_a ∪ set_b).card > 0 then
    ((set_a ∩ set_b).card : ℚ) / ((set_a ∪ set_b).card : ℚ)
  else 0

/-- `DuplicateDetector._check_word_similarity` (lines 211-218): 0 when either
word set is empty, else the Jaccard index of the word sets. -/
def check_word_similarity (ex : Extractors) (text1 text2 : String) : ℚ :=
  let words1 := ex.word_set text1
  let words2 := ex.word_set text2
  if words1 = ∅ ∨ words2 = ∅ then 0
  else if (words1 ∪ words2).card > 0 then
    ((words1 ∩ words2).card : ℚ) / ((words1 ∪ words2).card : ℚ)
  else 0

/-- The adaptive date-check threshold (duplicate_detector.py lines 76-79):
0.8, lowered to 0.5 when embedding similarity exceeds 0.98. -/
def date_check_threshold (similarity : ℚ) : ℚ :=
  if similarity > 0.98 then 0.5 else 0.8

/-- The adaptive feature-check threshold (duplicate_detector.py lines
95-97): 0.8, lowered to 0.5 when embedding similarity exceeds 0.98. -/
def feat_check_threshold (similarity : ℚ) : ℚ :=
  if similarity > 0.98 then 0.5 else 0.8

/-- The safety cascade run on one candidate (duplicate_detector.py lines
52-128): date check, feature check, length-ratio check, word-overlap check.
The source line `elif similarity > 0.92 and not date_mismatch: pass` (lines
114-115) has no effect and the word check always runs after the length
check, exactly as embedded here. -/
def safety_cascade (ex : Extractors) (similarity : ℚ)
    (current_content candidate_content : String) : Bool :=
  let dates_current := ex.extract_dates current_content
  let dates_candidate := ex.extract_dates candidate_content
  let feats_current := ex.extract_features current_content
  let feats_candidate := ex.extract_features candidate_content
  let conf1 : Bool :=
    if dates_current ≠ ∅ ∧ dates_candidate ≠ ∅ then
      decide (date_check_threshold similarity ≤
        calculate_jaccard dates_current dates_candidate)
    else true
  let conf2 : Bool :=
    if conf1 = true ∧ feats_current ≠ ∅ ∧ feats_candidate ≠ ∅ then
      decide (feat_check_threshold similarity ≤
        calculate_jaccard feats_current feats_candidate)
    else conf1
  if conf2 = true then
    let len_quot : ℚ :=
      if candidate_content.length > 0 then
        (current_content.length : ℚ) / (candidate_content.length : ℚ)
      else 0
    let conf3 : Bool :=
      if len_quot < 0.8 ∨ len_quot > 1.25 then false else conf2
    let word_sim := check_word_similarity ex current_content candidate_content
    let base_req : ℚ :=
      if current_content.length < 1500 then 0.90 else 0.85
    let base_req2 : ℚ := if similarity > 0.95 then base_req - 0.10 else base_req
    if word_sim < base_req2 then false else conf3
  else conf2

/-- Environment of one `ChromaClient.find_similar` call: whether the
embedding could be produced (`_get_embedding` returns non-empty), and the
outcome of the HNSW query (chroma_client.py lines 90-128). -/
structure ChromaQueryRow where
  id : Nat
  distance : ℚ
deriving DecidableEq

structure ChromaWorld where
  embedding_ok : Bool
  query : Except String (List ChromaQueryRow)

/-- `ChromaClient.find_similar` (chroma_client.py lines 87-128): empty on
embedding failure, empty on a query exception, else the rows converted to
similarity = 1 - distance, the queried document itself excluded, filtered
by the similarity floor, in query order. -/
def ChromaClient_find_similar (w : ChromaWorld) (threshold : ℚ)
    (exclude_id : Option Nat) : List Candidate :=
  if w.embedding_ok = false then []
  else
    match w.query with
    | .error _ => []
    | .ok rows =>
      rows.foldr (fun row acc =>
        let similarity : ℚ := 1 - row.distance
        if (match exclude_id with
            | some e => decide (e ≠ 0 ∧ row.id = e)
            | none => false) then acc
        else if threshold ≤ similarity then
          { id := row.id, similarity := similarity } :: acc
        else acc) []

/-- Document mutations attempted by `handle_duplicate` (duplicate_detector.py
lines 228-290): a note pointing at the original, and the Duplikat tag. -/
inductive Mutation where
  | add_note (doc_id : Nat) (original_id : Nat)
  | add_tag (doc_id : Nat) (tag : String)
deriving DecidableEq

def handle_duplicate_effects (doc_id original_id : Nat) : List Mutation :=
  [Mutation.add_note doc_id original_id, Mutation.add_tag doc_id "Duplikat"]

/-- Outcome of a `DuplicateDetector.process` run. -/
inductive DetectorOutcome where
  | disabled
  | too_short
  | chroma_unavailable
  | no_duplicate
  | confirmed (original_id : Nat) (similarity : ℚ)
deriving DecidableEq

/-- Result of a `DuplicateDetector.process` run: its outcome, the candidate
ids whose evaluation was entered (in order), and the attempted document
mutations. -/
structure DetectorRun where
  outcome : DetectorOutcome
  examined : List Nat
  effects : List Mutation
deriving DecidableEq

/-- The candidate loop of `DuplicateDetector.process` (lines 45-143): a
candidate whose paperless fetch raises is skipped (lines 134-136), a
candidate missing from paperless is skipped (lines 56-58), a candidate
without content is skipped (lines 130-132), a candidate surviving the
safety cascade is confirmed and the loop returns (lines 138-141), any other
candidate is rejected and the loop continues. -/
def detector_loop (ex : Extractors)
    (getDoc : Nat → Except String (Option PaperDoc))
    (doc_id : Nat) (current_content : String) :
    List Candidate → DetectorOutcome × List Nat × List Mutation
  | [] => (.no_duplicate, [], [])
  | c :: rest =>
    match getDoc c.id with
    | .error _ =>
      let r := detector_loop ex getDoc doc_id current_content rest
      (r.1, c.id :: r.2.1, r.2.2)
    | .ok none =>
      let r := detector_loop ex getDoc doc_id current_content rest
      (r.1, c.id :: r.2.1, r.2.2)
    | .ok (some doc) =>
      if doc.content = "" then
        let r := detector_loop ex getDoc doc_id current_content rest
        (r.1, c.id :: r.2.1, r.2.2)
      else if safety_cascade ex c.similarity current_content doc.content then
        (.confirmed c.id c.similarity, [c.id], handle_duplicate_effects doc_id c.id)
      else
        let r := detector_loop ex getDoc doc_id current_content rest
        (r.1, c.id :: r.2.1, r.2.2)

/-- `DuplicateDetector.process` (duplicate_detector.py lines 8-146):
module-enabled guard, minimum-content guard, ChromaClient construction
guard, similarity search, then the candidate loop. -/
def DuplicateDetector_process (cfg : DupConfig) (ex : Extractors)
    (chroma_ok : Bool) (cw : ChromaWorld)
    (getDoc : Nat → Except String (Option PaperDoc))
    (document_id : Nat) (current_content : String) : DetectorRun :=
  if cfg.enabled = false then ⟨.disabled, [], []⟩
  else if current_content = "" ∨ current_content.length < 50 then
    ⟨.too_short, [], []⟩
  else if chroma_ok = false then ⟨.chroma_unavailable, [], []⟩
  else
    let similar := ChromaClient_find_similar cw cfg.threshold (some document_id)
    let r := detector_loop ex getDoc document_id current_content similar
    ⟨r.1, r.2.1, r.2.2⟩

/-- A candidate that passes the whole evaluation of the loop: its document is
fetched without error, exists, has content, and survives the safety
cascade. -/
def cascade_survivor (ex : Extractors)
    (getDoc : Nat → Except String (Option PaperDoc))
    (current_content : String) (c : Candidate) : Bool :=
  match getDoc c.id with
  | .ok (some doc) =>
    if doc.content = "" then false
    else safety_cascade ex c.similarity current_content doc.content
  | _ => false

/-- Helper: the candidate loop returns exactly the first candidate (in list
order) that passes the whole evaluation; the candidates actually entered
are the rejected/skipped prefix plus, when one survives, that candidate. -/
theorem detector_loop_first_match (ex : Extractors)
    (getDoc : Nat → Except String (Option PaperDoc))
    (doc_id : Nat) (cur : String) :
    ∀ cands : List Candidate,
      detector_loop ex getDoc doc_id cur cands =
        (match cands.find? (cascade_survivor ex getDoc cur) with
         | some c => (DetectorOutcome.confirmed c.id c.similarity,
             (cands.takeWhile
               (fun d => !(cascade_survivor ex getDoc cur d))).map (fun d => d.id)
               ++ [c.id],
             handle_duplicate_effects doc_id c.id)
         | none => (DetectorOutcome.no_duplicate,
             cands.map (fun d => d.id), [])) := by
  intro cands
  induction cands with
  | nil => rfl
  | cons c rest ih =>
    cases hg : getDoc c.id with
    | error e =>
      have hs : cascade_survivor ex getDoc cur c = false := by
        simp [cascade_survivor, hg]
      simp only [detector_loop, hg, ih]
      rw [List.find?_cons_of_neg _ (by simp [hs]),
        List.takeWhile_cons_of_pos (by simp [hs])]
      cases hf : rest.find? (cascade_survivor ex getDoc cur) <;> simp
    | ok od =>
      cases od with
      | none =>
        have hs : cascade_survivor ex getDoc cur c = false := by
          simp [cascade_survivor, hg]
        simp only [detector_loop, hg, ih]
        rw [List.find?_cons_of_neg _ (by simp [hs]),
          List.takeWhile_cons_of_pos (by simp [hs])]
        cases hf : rest.find? (cascade_survivor ex getDoc cur) <;> simp
      | some doc =>
        by_cases hc : doc.content = ""
        · have hs : cascade_survivor ex getDoc cur c = false := by
            simp [cascade_survivor, hg, hc]
          simp only [detector_loop, hg, if_pos hc, ih]
          rw [List.find?_cons_of_neg _ (by simp [hs]),
            List.takeWhile_cons_of_pos (by simp [hs])]
          cases hf : rest.find? (cascade_survivor ex getDoc cur) <;> simp
        · by_cases hcas : safety_cascade ex c.similarity cur doc.content = true
          · have hs : cascade_survivor ex getDoc cur c = true := by
              simp [cascade_survivor, hg, hc, hcas]
            simp only [detector_loop, hg, if_neg hc, hcas, if_true]
            rw [List.find?_cons_of_pos _ hs,
              List.takeWhile_cons_of_neg (by simp [hs])]
            simp
          · have hs : cascade_survivor ex getDoc cur c = false := by
              simp [cascade_survivor, hg, hc, hcas]
            simp only [detector_loop, hg, if_neg hc, ih]
            rw [if_neg (by simp [hcas]),
              List.find?_cons_of_neg _ (by simp [hs]),
              List.takeWhile_cons_of_pos (by simp [hs])]
            cases hf : rest.find? (cascade_survivor ex getDoc cur) <;> simp

/-- C7: in every duplicate-confirmation run that reaches the candidate
loop, candidates are evaluated exactly in the order the similarity search
returned them; the confirmed duplicate, if any, is the first candidate in
that order passing the whole evaluation (fetch succeeds, document exists,
has content, survives the safety cascade), and after a confirmation the
run stops: the candidates entered are precisely the rejected prefix plus
the confirmed one. -/
theorem duplicate_process_first_match (cfg : DupConfig) (ex : Extractors)
    (cw : ChromaWorld) (getDoc : Nat → Except String (Option PaperDoc))
    (document_id : Nat) (content : String)
    (h1 : cfg.enabled = true)
    (h2 : ¬ (content = "" ∨ content.length < 50)) :
    (DuplicateDetector_process cfg ex true cw getDoc document_id content).outcome =
      (match (ChromaClient_find_similar cw cfg.threshold (some document_id)).find?
          (cascade_survivor ex getDoc content) with
       | some c => DetectorOutcome.confirmed c.id c.similarity
       | none => DetectorOutcome.no_duplicate) ∧
    (DuplicateDetector_process cfg ex true cw getDoc document_id content).examined =
      (match (ChromaClient_find_similar cw cfg.threshold (some document_id)).find?
          (cascade_survivor ex getDoc content) with
       | some c =>
         ((ChromaClient_find_similar cw cfg.threshold (some document_id)).takeWhile
             (fun d => !(cascade_survivor ex getDoc content d))).map (fun d => d.id)
           ++ [c.id]
       | none =>
         (ChromaClient_find_similar cw cfg.threshold
           (some document_id)).map (fun d => d.id)) := by
  have he : (cfg.enabled = false) = False := by simp [h1]
  simp only [DuplicateDetector_process, he, if_false, if_neg h2]
  rw [if_neg (by simp)]
  rw [detector_loop_first_match]
  cases hf : (ChromaClient_find_similar cw cfg.threshold
      (some document_id)).find? (cascade_survivor ex getDoc content) <;> simp

/-- Concrete inputs for the duplicate-detector witnesses. -/
def wContent : String :=
  "This invoice text is long enough to pass the fifty character floor."

def wExtract : Extractors :=
  { extract_dates := fun _ => ∅, extract_features := fun _ => ∅,
    word_set := fun s => {s} }

def wChroma : ChromaWorld :=
  { embedding_ok := true,
    query := Except.ok [{ id := 7, distance := 1/20 }, { id := 8, distance := 1/25 }] }

def wChromaDown : ChromaWorld :=
  { embedding_ok := true, query := Except.error "connection refused" }

def wGetDoc : Nat → Except String (Option PaperDoc) := fun n =>
  if n = 8 then Except.ok (some { content := wContent }) else Except.ok none

def wCfg : DupConfig := { enabled := true, threshold := 0.85 }

/-- Helper: the concrete similarity search returns candidates 7 and 8. -/
theorem wFindSimilar_eval :
    ChromaClient_find_similar wChroma wCfg.threshold (some 3) =
      [{ id := 7, similarity := 19/20 }, { id := 8, similarity := 24/25 }] := by
  norm_num [ChromaClient_find_similar, wChroma, wCfg]

/-- Helper: candidate 7 is stale in paperless and does not survive. -/
theorem wSurvivor7 :
    cascade_survivor wExtract wGetDoc wContent
      { id := 7, similarity := 19/20 } = false := by
  simp [cascade_survivor, wGetDoc]

/-- Helper: candidate 8 has identical content and survives the cascade. -/
theorem wSurvivor8 :
    cascade_survivor wExtract wGetDoc wContent
      { id := 8, similarity := 24/25 } = true := by
  have hlen : wContent.length = 67 := by decide
  have hne : ¬ wContent = "" := by decide
  simp only [cascade_survivor, wGetDoc]
  norm_num [safety_cascade, wExtract, check_word_similarity,
    calculate_jaccard, date_check_threshold, feat_check_threshold, hlen, hne]

/-- Witness for C7 at a concrete input: candidate 7 (similarity 0.95, stale
in paperless) is entered and skipped, candidate 8 (similarity 0.96,
identical content) is the first survivor and is confirmed; the run stops
there. -/
theorem duplicate_process_first_match_witness :
    (DuplicateDetector_process wCfg wExtract true wChroma wGetDoc 3 wContent).outcome =
      DetectorOutcome.confirmed 8 (24/25) ∧
    (DuplicateDetector_process wCfg wExtract true wChroma wGetDoc 3 wContent).examined =
      [7, 8] := by
  have h := duplicate_process_first_match wCfg wExtract wChroma wGetDoc 3 wContent
    rfl (by decide)
  rw [wFindSimilar_eval] at h
  refine ⟨?_, ?_⟩
  · rw [h.1]
    simp [List.find?, wSurvivor7, wSurvivor8]
  · rw [h.2]
    simp [List.find?, List.takeWhile, wSurvivor7, wSurvivor8]

/-- C8: the adaptive Jaccard thresholds of the date check and the feature
check are antitone in the embedding similarity — for s1 ≤ s2 the threshold
applied at s2 is at most the one applied at s1 — dropping from 0.8 to 0.5
exactly when similarity exceeds 0.98, so higher similarity never makes
those checks stricter. -/
theorem adaptive_threshold_antitone (s1 s2 : ℚ) (h : s1 ≤ s2) :
    date_check_threshold s2 ≤ date_check_threshold s1 ∧
    feat_check_threshold s2 ≤ feat_check_threshold s1 ∧
    (0.98 < s1 → date_check_threshold s1 = 0.5 ∧ feat_check_threshold s1 = 0.5) ∧
    (s1 ≤ 0.98 → date_check_threshold s1 = 0.8 ∧ feat_check_threshold s1 = 0.8) := by
  by_cases h1 : s1 > 0.98
  · have h2 : s2 > 0.98 := lt_of_lt_of_le h1 h
    refine ⟨?_, ?_, ?_, ?_⟩
    · simp [date_check_threshold, h1, h2]
    · simp [feat_check_threshold, h1, h2]
    · intro _
      simp [date_check_threshold, feat_check_threshold, h1]
    · intro hle
      exact absurd h1 (not_lt_of_le hle)
  · refine ⟨?_, ?_, ?_, ?_⟩
    · by_cases h2 : s2 > 0.98
      · simp only [date_check_threshold, if_pos h2, if_neg h1]
        norm_num
      · simp [date_check_threshold, h1, h2]
    · by_cases h2 : s2 > 0.98
      · simp only [feat_check_threshold, if_pos h2, if_neg h1]
        norm_num
      · simp [feat_check_threshold, h1, h2]
    · intro hgt
      exact absurd hgt h1
    · intro _
      simp [date_check_threshold, feat_check_threshold, h1]

/-- Witness for C8 at concrete similarities 0.9 ≤ 0.99: the thresholds
relax from 0.8 to 0.5 across the 0.98 cutoff. -/
theorem adaptive_threshold_antitone_witness :
    date_check_threshold 0.99 ≤ date_check_threshold 0.9 ∧
    feat_check_threshold 0.99 ≤ feat_check_threshold 0.9 ∧
    date_check_threshold 0.9 = 0.8 ∧ date_check_threshold 0.99 = 0.5 := by
  have h := adaptive_threshold_antitone 0.9 0.99 (by norm_num)
  have h9 := adaptive_threshold_antitone 0.99 0.99 (le_refl _)
  exact ⟨h.1, h.2.1, (h.2.2.2 (by norm_num)).1, (h9.2.2.1 (by norm_num)).1⟩

/-- C10: if the vector index client cannot be constructed, or the
similarity query fails (no embedding, or a query exception), or it returns
no candidates, the duplicate-confirmation run completes without confirming
any duplicate and without attempting any document mutation. -/
theorem duplicate_process_degraded (cfg : DupConfig) (ex : Extractors)
    (chroma_ok : Bool) (cw : ChromaWorld)
    (getDoc : Nat → Except String (Option PaperDoc))
    (document_id : Nat) (content : String)
    (h : chroma_ok = false ∨ cw.embedding_ok = false ∨
         (∃ e, cw.query = Except.error e) ∨
         ChromaClient_find_similar cw cfg.threshold (some document_id) = []) :
    (∀ oid s, (DuplicateDetector_process cfg ex chroma_ok cw getDoc
        document_id content).outcome ≠ DetectorOutcome.confirmed oid s) ∧
    (DuplicateDetector_process cfg ex chroma_ok cw getDoc
        document_id content).effects = [] := by
  by_cases h1 : cfg.enabled = false
  · simp [DuplicateDetector_process, h1]
  · by_cases h2 : content = "" ∨ content.length < 50
    · simp [DuplicateDetector_process, h1, h2]
    · by_cases h3 : chroma_ok = false
      · simp [DuplicateDetector_process, h1, h2, h3]
      · have hfs : ChromaClient_find_similar cw cfg.threshold (some document_id) = [] := by
          rcases h with h | h | ⟨e, he⟩ | h
          · exact absurd h h3
          · simp [ChromaClient_find_similar, h]
          · cases hemb : cw.embedding_ok <;>
              simp [ChromaClient_find_similar, he, hemb]
          · exact h
        simp [DuplicateDetector_process, h1, h2, h3, hfs, detector_loop]

/-- Witness for C10 at a concrete input: with the vector query raising, the
run confirms nothing and attempts no mutation. -/
theorem duplicate_process_degraded_witness :
    (DuplicateDetector_process wCfg wExtract true wChromaDown wGetDoc
        3 wContent).outcome ≠ DetectorOutcome.confirmed 8 (24/25) ∧
    (DuplicateDetector_process wCfg wExtract true wChromaDown wGetDoc
        3 wContent).effects = [] := by
  have h := duplicate_process_degraded wCfg wExtract true wChromaDown wGetDoc 3 wContent
    (Or.inr (Or.inr (Or.inl ⟨"connection refused", rfl⟩)))
  exact ⟨h.1 8 (24/25), h.2⟩

/- ─────────── document_optimizer.py / watchdog page loop ─────────── -/

/-- `DocumentOptimizer.optimize_image` (document_optimizer.py lines 16-53):
the whole PIL pipeline (grayscale → bounded resize → sharpen → contrast →
PNG encode) runs inside one try block whose outcome is the parameter; on
success the base64 string is returned, on any exception the error is
logged and the empty string is returned (lines 51-53). -/
def DocumentOptimizer_optimize_image (pipeline : Except String String) : String :=
  match pipeline with
  | .ok b64 => b64
  | .error _ => ""

/-- The page loop of `process_file_single` (ai_watchdog.py lines 197-200):
the optimisation result of each page is appended to the sequence of
encoded images, whatever that result is. -/
def watchdog_optimize_pages (pages : List (Except String String)) : List String :=
  pages.map DocumentOptimizer_optimize_image

/-- C9 counterexample: with three rendered pages whose middle page fails
normalisation, the sequence of encoded page images keeps an empty
placeholder entry for the failed page — it is not dropped from the
sequence, contrary to the claim. -/
theorem optimize_pages_failed_page_not_dropped :
    watchdog_optimize_pages
        [Except.ok "pageA", Except.error "PIL failure", Except.ok "pageB"] =
      ["pageA", "", "pageB"] ∧
    watchdog_optimize_pages
        [Except.ok "pageA", Except.error "PIL failure", Except.ok "pageB"] ≠
      ["pageA", "pageB"] := by
  exact ⟨rfl, by decide⟩

/-- C9 amended: when normalisation of a single page fails, the failure is
logged and that page contributes an empty-string placeholder kept in place
(one entry per rendered page, later turned into the per-page OCR error
sentinel by the worker); the remaining pages are still processed and the
job is not aborted. -/
theorem optimize_pages_error_handling (pages : List (Except String String)) :
    (watchdog_optimize_pages pages).length = pages.length ∧
    (∀ i, i < pages.length →
      (watchdog_optimize_pages pages).getD i "" =
        DocumentOptimizer_optimize_image (pages.getD i (Except.ok ""))) := by
  constructor
  · simp [watchdog_optimize_pages]
  · intro i hi
    simp only [watchdog_optimize_pages, List.getD_eq_getElem?_getD,
      List.getElem?_map]
    cases h : pages[i]? with
    | none =>
      rw [List.getElem?_eq_none_iff] at h
      omega
    | some p => simp

/-- Witness for the amended C9 at a concrete input: a two-page job whose
second page fails keeps two entries, the second being the placeholder. -/
theorem optimize_pages_error_handling_witness :
    (watchdog_optimize_pages [Except.ok "pageA", Except.error "boom"]).length = 2 ∧
    (watchdog_optimize_pages [Except.ok "pageA", Except.error "boom"]).getD 1 "" = "" := by
  have h := optimize_pages_error_handling [Except.ok "pageA", Except.error "boom"]
  refine ⟨h.1, ?_⟩
  rw [h.2 1 (by decide)]
  rfl

/- ────────── content hashes: producer MD5 vs downstream SHA-256 ────────── -/

/-- Addition modulo 2^32. -/
def add32 (a b : Nat) : Nat := (a + b) % 4294967296

/-- Bitwise complement on 32-bit words. -/
def not32 (a : Nat) : Nat := a ^^^ 4294967295

/-- Left rotation of a 32-bit word. -/
def rotl32 (x n : Nat) : Nat := ((x <<< n) % 4294967296) ||| (x >>> (32 - n))

/-- Right rotation of a 32-bit word. -/
def rotr32 (x n : Nat) : Nat := (x >>> n) ||| ((x <<< (32 - n)) % 4294967296)

/-- `k` bytes of `n`, little endian. -/
def toBytesLE : Nat → Nat → List Nat
  | 0, _ => []
  | k + 1, n => (n % 256) :: toBytesLE k (n / 256)

/-- `k` bytes of `n`, big endian. -/
def toBytesBE (k n : Nat) : List Nat := (toBytesLE k n).reverse

/-- Split a byte sequence into 64-byte blocks; the fuel argument (any bound
on the number of blocks, e.g. the length) keeps the recursion structural so
that the definition evaluates by reduction. -/
def chunksAux : Nat → List Nat → List (List Nat)
  | 0, _ => []
  | _, [] => []
  | fuel + 1, b :: rest =>
    ((b :: rest).take 64) :: chunksAux fuel ((b :: rest).drop 64)

def chunks64 (l : List Nat) : List (List Nat) := chunksAux l.length l

/-- Little-endian 32-bit word `i` of a 64-byte block. -/
def leWord (block : List Nat) (i : Nat) : Nat :=
  block.getD (4 * i) 0 + 256 * block.getD (4 * i + 1) 0 +
    65536 * block.getD (4 * i + 2) 0 + 16777216 * block.getD (4 * i + 3) 0

/-- Big-endian 32-bit word `i` of a 64-byte block. -/
def beWord (block : List Nat) (i : Nat) : Nat :=
  16777216 * block.getD (4 * i) 0 + 65536 * block.getD (4 * i + 1) 0 +
    256 * block.getD (4 * i + 2) 0 + block.getD (4 * i + 3) 0

/-- Merkle-Damgård padding: 0x80, zeros to 56 mod 64, then the 8-byte bit
length (little endian for MD5). -/
def md5_pad (msg : List Nat) : List Nat :=
  let padlen := (120 - ((msg.length + 1) % 64)) % 64
  msg ++ [0x80] ++ List.replicate padlen 0 ++
    toBytesLE 8 ((msg.length * 8) % (2 ^ 64))

/-- The MD5 per-operation shift table (RFC 1321). -/
def md5_s : List Nat :=
  [7, 12, 17, 22, 7, 12, 17, 22, 7, 12, 17, 22, 7, 12, 17, 22,
   5, 9, 14, 20, 5, 9, 14, 20, 5, 9, 14, 20, 5, 9, 14, 20,
   4, 11, 16, 23, 4, 11, 16, 23, 4, 11, 16, 23, 4, 11, 16, 23,
   6, 10, 15, 21, 6, 10, 15, 21, 6, 10, 15, 21, 6, 10, 15, 21]

/-- The MD5 sine-derived constant table (RFC 1321). -/
def md5_K : List Nat :=
  [0xd76aa478, 0xe8c7b756, 0x242070db, 0xc1bdceee,
   0xf57c0faf, 0x4787c62a, 0xa8304613, 0xfd469501,
   0x698098d8, 0x8b44f7af, 0xffff5bb1, 0x895cd7be,
   0x6b901122, 0xfd987193, 0xa679438e, 0x49b40821,
   0xf61e2562, 0xc040b340, 0x265e5a51, 0xe9b6c7aa,
   0xd62f105d, 0x02441453, 0xd8a1e681, 0xe7d3fbc8,
   0x21e1cde6, 0xc33707d6, 0xf4d50d87, 0x455a14ed,
   0xa9e3e905, 0xfcefa3f8, 0x676f02d9, 0x8d2a4c8a,
   0xfffa3942, 0x8771f681, 0x6d9d6122, 0xfde5380c,
   0xa4beea44, 0x4bdecfa9, 0xf6bb4b60, 0xbebfbc70,
   0x289b7ec6, 0xeaa127fa, 0xd4ef3085, 0x04881d05,
   0xd9d4d039, 0xe6db99e5, 0x1fa27cf8, 0xc4ac5665,
   0xf4292244, 0x432aff97, 0xab9423a7, 0xfc93a039,
   0x655b59c3, 0x8f0ccc92, 0xffeff47d, 0x85845dd1,
   0x6fa87e4f, 0xfe2ce6e0, 0xa3014314, 0x4e0811a1,
   0xf7537e82, 0xbd3af235, 0x2ad7d2bb, 0xeb86d391]

/-- One MD5 operation (RFC 1321 round functions F, G, H, I and message
index schedule). -/
def md5_op (M : Nat → Nat) (i : Nat) (st : Nat × Nat × Nat × Nat) :
    Nat × Nat × Nat × Nat :=
  let (a, b, c, d) := st
  let fg : Nat × Nat :=
    if i < 16 then ((b &&& c) ||| ((not32 b) &&& d), i)
    else if i < 32 then ((d &&& b) ||| ((not32 d) &&& c), (5 * i + 1) % 16)
    else if i < 48 then (b ^^^ c ^^^ d, (3 * i + 5) % 16)
    else (c ^^^ (b ||| (not32 d)), (7 * i) % 16)
  let tmp := add32 (add32 (add32 a fg.1) (md5_K.getD i 0)) (M fg.2)
  (d, add32 b (rotl32 tmp (md5_s.getD i 0)), b, c)

/-- MD5 compression of one 64-byte block. -/
def md5_process_block (st : Nat × Nat × Nat × Nat) (block : List Nat) :
    Nat × Nat × Nat × Nat :=
  let r := (List.range 64).foldl (fun s i => md5_op (leWord block) i s) st
  (add32 st.1 r.1, add32 st.2.1 r.2.1, add32 st.2.2.1 r.2.2.1,
    add32 st.2.2.2 r.2.2.2)

/-- MD5 initial state (RFC 1321). -/
def md5_init : Nat × Nat × Nat × Nat :=
  (0x67452301, 0xefcdab89, 0x98badcfe, 0x10325476)

/-- The 16-byte MD5 digest of a byte sequence. -/
def md5_bytes (msg : List Nat) : List Nat :=
  let st := (chunks64 (md5_pad msg)).foldl md5_process_block md5_init
  toBytesLE 4 st.1 ++ toBytesLE 4 st.2.1 ++ toBytesLE 4 st.2.2.1 ++
    toBytesLE 4 st.2.2.2

/-- Lower-case hex digit. -/
def hexDigitChar (n : Nat) : Char :=
  if n < 10 then Char.ofNat (48 + n) else Char.ofNat (87 + n)

/-- Lower-case hex string of a byte sequence, as `hexdigest()` returns. -/
def bytesToHex (bs : List Nat) : String :=
  String.mk (bs.foldr
    (fun b acc => hexDigitChar (b / 16) :: hexDigitChar (b % 16) :: acc) [])

/-- `calculate_md5` (ai_watchdog.py lines 61-67): the MD5 hex digest of the
raw file bytes; this is the `uid` under which the worker stages the file
and writes the sidecar (lines 82, 204, 339). -/
def calculate_md5 (file_bytes : List Nat) : String :=
  bytesToHex (md5_bytes file_bytes)

/-- RFC 1321 test vector: the embedding computes real MD5 (empty input). -/
theorem md5_empty_vector :
    calculate_md5 [] = "d41d8cd98f00b204e9800998ecf8427e" := by decide

/-- RFC 1321 test vector: MD5 of "abc". -/
theorem md5_abc_vector :
    calculate_md5 [97, 98, 99] = "900150983cd24fb0d6963f7d28e17f72" := by decide

/-- SHA-256 padding: like the MD5 one but with a big-endian bit length. -/
def sha256_pad (msg : List Nat) : List Nat :=
  let padlen := (120 - ((msg.length + 1) % 64)) % 64
  msg ++ [0x80] ++ List.replicate padlen 0 ++
    toBytesBE 8 ((msg.length * 8) % (2 ^ 64))

/-- The SHA-256 round constant table (FIPS 180-4). -/
def sha256_K : List Nat :=
  [1116352408, 1899447441, 3049323471, 3921009573,
   961987163, 1508970993, 2453635748, 2870763221,
   3624381080, 310598401, 607225278, 1426881987,
   1925078388, 2162078206, 2614888103, 3248222580,
   3835390401, 4022224774, 264347078, 604807628,
   770255983, 1249150122, 1555081692, 1996064986,
   2554220882, 2821834349, 2952996808, 3210313671,
   3336571891, 3584528711, 113926993, 338241895,
   666307205, 773529912, 1294757372, 1396182291,
   1695183700, 1986661051, 2177026350, 2456956037,
   2730485921, 2820302411, 3259730800, 3345764771,
   3516065817, 3600352804, 4094571909, 275423344,
   430227734, 506948616, 659060556, 883997877,
   958139571, 1322822218, 1537002063, 1747873779,
   1955562222, 2024104815, 2227730452, 2361852424,
   2428436474, 2756734187, 3204031479, 3329325298]

/-- The SHA-256 initial hash state (FIPS 180-4). -/
def sha256_init : List Nat :=
  [1779033703, 3144134277, 1013904242, 2773480762,
   1359893119, 2600822924, 528734635, 1541459225]

/-- One extension step of the SHA-256 message schedule. -/
def sha256_extend (w : List Nat) (i : Nat) : Nat :=
  let w15 := w.getD (i - 15) 0
  let w2 := w.getD (i - 2) 0
  let s0 := (rotr32 w15 7) ^^^ (rotr32 w15 18) ^^^ (w15 >>> 3)
  let s1 := (rotr32 w2 17) ^^^ (rotr32 w2 19) ^^^ (w2 >>> 10)
  (w.getD (i - 16) 0 + s0 + w.getD (i - 7) 0 + s1) % 4294967296

/-- The 64-word SHA-256 message schedule of one block. -/
def sha256_msg_schedule (block : List Nat) : List Nat :=
  (List.range 48).foldl (fun w i => w ++ [sha256_extend w (i + 16)])
    ((List.range 16).map (beWord block))

/-- One SHA-256 compression round on the 8-word state. -/
def sha256_round (wi ki : Nat) (st : List Nat) : List Nat :=
  match st with
  | [a, b, c, d, e, f, g, h] =>
    let S1 := (rotr32 e 6) ^^^ (rotr32 e 11) ^^^ (rotr32 e 25)
    let ch := (e &&& f) ^^^ ((not32 e) &&& g)
    let temp1 := (h + S1 + ch + ki + wi) % 4294967296
    let S0 := (rotr32 a 2) ^^^ (rotr32 a 13) ^^^ (rotr32 a 22)
    let maj := (a &&& b) ^^^ (a &&& c) ^^^ (b &&& c)
    let temp2 := (S0 + maj) % 4294967296
    [(temp1 + temp2) % 4294967296, a, b, c,
      (d + temp1) % 4294967296, e, f, g]
  | other => other

/-- SHA-256 compression of one 64-byte block. -/
def sha256_process_block (st : List Nat) (block : List Nat) : List Nat :=
  let w := sha256_msg_schedule block
  let r := (List.range 64).foldl
    (fun s i => sha256_round (w.getD i 0) (sha256_K.getD i 0) s) st
  List.zipWith (fun x y => (x + y) % 4294967296) st r

/-- The 32-byte SHA-256 digest of a byte sequence. -/
def sha256_bytes (msg : List Nat) : List Nat :=
  let st := (chunks64 (sha256_pad msg)).foldl sha256_process_block sha256_init
  st.foldr (fun x acc => toBytesBE 4 x ++ acc) []

/-- The UID computation of the downstream post-consume stage
(ai_post_consume.py lines 161-169): the SHA-256 hex digest of the raw file
bytes. -/
def post_consume_uid (file_bytes : List Nat) : String :=
  bytesToHex (sha256_bytes file_bytes)

/-- FIPS 180-4 test vector: SHA-256 of "abc". -/
theorem sha256_abc_vector :
    post_consume_uid [97, 98, 99] =
      "ba7816bf8f01cfea414140de5dae2223b00361a396177a9cb410ff61f20015ad" := by
  decide

/-- The sidecar filename the worker writes (ai_watchdog.py lines 338-339):
keyed by the MD5 uid of the raw file bytes. -/
def watchdog_sidecar_name (file_bytes : List Nat) : String :=
  calculate_md5 file_bytes ++ ".json"

/-- The sidecar filename the downstream stage looks up
(ai_post_consume.py lines 161-169 and 185-186): keyed by the SHA-256 uid
of the raw file bytes. -/
def post_consume_sidecar_name (file_bytes : List Nat) : String :=
  post_consume_uid file_bytes ++ ".json"

/-- Helper: `toBytesLE` always yields exactly `k` bytes. -/
theorem toBytesLE_length : ∀ k n, (toBytesLE k n).length = k := by
  intro k
  induction k with
  | zero => intro n; rfl
  | succ m ih => intro n; simp [toBytesLE, ih]

/-- Helper: the hex string of a byte sequence has two characters per byte. -/
theorem bytesToHex_length : ∀ bs, (bytesToHex bs).length = 2 * bs.length := by
  intro bs
  induction bs with
  | nil => rfl
  | cons b rest ih =>
    simp only [bytesToHex, String.length, List.foldr_cons] at ih ⊢
    simp [ih]
    omega

/-- Helper: an MD5 digest is 16 bytes. -/
theorem md5_bytes_length (msg : List Nat) : (md5_bytes msg).length = 16 := by
  simp [md5_bytes, toBytesLE_length]

/-- Helper: one SHA-256 round preserves the 8-word state shape. -/
theorem sha256_round_length (wi ki : Nat) (st : List Nat)
    (h : st.length = 8) : (sha256_round wi ki st).length = 8 := by
  rcases st with _ | ⟨a, _ | ⟨b, _ | ⟨c, _ | ⟨d, _ | ⟨e, _ | ⟨f, _ |
    ⟨g, _ | ⟨h8, _ | ⟨i, tail⟩⟩⟩⟩⟩⟩⟩⟩⟩ <;> simp_all [sha256_round]

/-- Helper: the SHA-256 compression loop preserves the state shape. -/
theorem sha256_fold_length (w : List Nat) :
    ∀ (l : List Nat) (st : List Nat), st.length = 8 →
      (l.foldl (fun s i => sha256_round (w.getD i 0) (sha256_K.getD i 0) s)
        st).length = 8 := by
  intro l
  induction l with
  | nil => intro st h; exact h
  | cons x rest ih =>
    intro st h
    exact ih _ (sha256_round_length _ _ _ h)

/-- Helper: block compression preserves the state shape. -/
theorem sha256_process_block_length (st block : List Nat)
    (h : st.length = 8) : (sha256_process_block st block).length = 8 := by
  simp only [sha256_process_block, List.length_zipWith]
  rw [h, sha256_fold_length _ _ _ h]
  exact min_self 8

/-- Helper: hashing any number of blocks preserves the state shape. -/
theorem sha256_blocks_length :
    ∀ (blocks : List (List Nat)) (st : List Nat), st.length = 8 →
      (blocks.foldl sha256_process_block st).length = 8 := by
  intro blocks
  induction blocks with
  | nil => intro st h; exact h
  | cons b rest ih =>
    intro st h
    exact ih _ (sha256_process_block_length _ _ h)

/-- Helper: `toBytesBE` always yields exactly `k` bytes. -/
theorem toBytesBE_length (k n : Nat) : (toBytesBE k n).length = k := by
  simp [toBytesBE, toBytesLE_length]

/-- Helper: serialising the 8-word state yields 4 bytes per word. -/
theorem sha256_serialize_length :
    ∀ st : List Nat,
      (st.foldr (fun x acc => toBytesBE 4 x ++ acc) []).length = 4 * st.length := by
  intro st
  induction st with
  | nil => rfl
  | cons x rest ih =>
    simp only [List.foldr_cons, List.length_append, toBytesBE_length, ih,
      List.length_cons]
    omega

/-- Helper: a SHA-256 digest is 32 bytes. -/
theorem sha256_bytes_length (msg : List Nat) : (sha256_bytes msg).length = 32 := by
  have h8 : (sha256_init : List Nat).length = 8 := rfl
  simp only [sha256_bytes]
  rw [sha256_serialize_length, sha256_blocks_length _ _ h8]

/-- C2: the producer and the downstream reader do not compute the same
function of the raw file bytes — the worker keys the staged file and the
sidecar by the MD5 hex digest (32 characters) while the post-consume stage
recomputes a SHA-256 hex digest (64 characters) — so for every file the
sidecar name written and the sidecar name looked up differ, and the
downstream lookup never finds the sidecar the worker wrote; evaluated at
the concrete file "test" the two digests are as computed here. -/
theorem uid_hash_functions_differ :
    (∀ file_bytes : List Nat,
      (watchdog_sidecar_name file_bytes).length = 37 ∧
      (post_consume_sidecar_name file_bytes).length = 69 ∧
      watchdog_sidecar_name file_bytes ≠ post_consume_sidecar_name file_bytes) ∧
    calculate_md5 [116, 101, 115, 116] =
      "098f6bcd4621d373cade4e832627b4f6" ∧
    post_consume_uid [116, 101, 115, 116] =
      "9f86d081884c7d659a2feaa0c55ad015a3bf4f1b2b0b822cd15d6c15b0f00a08" := by
  refine ⟨?_, by decide, by decide⟩
  intro file_bytes
  have hjson : (".json" : String).length = 5 := rfl
  have h1 : (watchdog_sidecar_name file_bytes).length = 37 := by
    simp [watchdog_sidecar_name, calculate_md5, String.length_append,
      bytesToHex_length, md5_bytes_length, hjson]
  have h2 : (post_consume_sidecar_name file_bytes).length = 69 := by
    simp [post_consume_sidecar_name, post_consume_uid, String.length_append,
      bytesToHex_length, sha256_bytes_length, hjson]
  refine ⟨h1, h2, ?_⟩
  intro he
  rw [he, h2] at h1
  exact absurd h1 (by norm_num)

/- ─────────────────── ai_watchdog.py: the GPU worker ─────────────────── -/

/-- A queue item as produced by `process_file_single` (lines 212-219), by
`recover_staged_files` (lines 471-477, no duplicate_info key) and by
`ai_retagger` (lines 546-553, with retro_doc_id). -/
structure QueueItem where
  uid : String
  original_filename : String
  staged_file : String
  work_dir : String
  b64_images : List String
  has_duplicate_info : Bool
  retro_doc_id : Option Nat
deriving DecidableEq

/-- Python raising semantics needed here: an unresolved name. -/
inductive PyError where
  | nameError (name : String)
deriving DecidableEq

/-- Names assigned in the scope of `gpu_worker` (parameters and assignment
targets of ai_watchdog.py lines 272-390). `full_ai_text`, referenced at
lines 321 and 343, is assigned nowhere in the function. -/
def gpu_worker_local_names : List String :=
  ["config", "llm_client", "prompt", "item", "uid", "original_filename",
   "staged_file", "work_dir", "b64_images", "remaining", "page_texts",
   "i", "b64", "text", "retro_doc_id", "client", "api_err",
   "sidecar_json", "sidecar_data", "target_consume", "e"]

/-- The module-level names of ai_watchdog.py (imports, constants and
function definitions, lines 9-61 and 69-640). -/
def ai_watchdog_global_names : List String :=
  ["os", "sys", "shutil", "base64", "logging", "subprocess", "time", "io",
   "Path", "Any", "TYPE_CHECKING", "json", "threading", "queue", "ocr_queue",
   "WATCH_DIR", "CONSUME_DIR", "MD_BUFFER_DIR", "STAGING_DIR", "GPU_BUSY_FLAG",
   "OLLAMA_URL", "DPI", "RESIZE_MAX", "logger", "requests", "Image",
   "ImageEnhance", "ImageFilter", "convert_from_path", "hashlib", "yaml",
   "calculate_md5", "load_config", "process_file_single", "gpu_worker",
   "recover_staged_files", "ai_retagger", "main", "process_file_and_cleanup"]

/-- Python name resolution as seen from the body of `gpu_worker`: a name is
found if it is a local of the function or a module global. -/
def name_resolves (x : String) : Bool :=
  gpu_worker_local_names.contains x || ai_watchdog_global_names.contains x

/-- One entry of a dict literal: either an expression that cannot fail in
this model (an immediate value) or a bare name to resolve in the enclosing
scope. -/
inductive DictField where
  | immediate (key : String)
  | nameRef (key : String) (name : String)
deriving DecidableEq

/-- The sidecar dict literal of the standard path (ai_watchdog.py lines
340-347), in source order: metadata is the literal object, duplicate_info
comes from item.get, ai_content is the bare name full_ai_text, scan_date
is time.time(), and original_filename and uid are bound locals. -/
def sidecar_literal_fields : List DictField :=
  [DictField.immediate "metadata",
   DictField.immediate "duplicate_info",
   DictField.nameRef "ai_content" "full_ai_text",
   DictField.immediate "scan_date",
   DictField.nameRef "original_filename" "original_filename",
   DictField.nameRef "uid" "uid"]

/-- The PATCH payload of the retroactive path (ai_watchdog.py lines
320-322): a single entry whose value is the bare name full_ai_text. -/
def retro_patch_fields : List DictField :=
  [DictField.nameRef "content" "full_ai_text"]

/-- Evaluation of a dict literal, entry by entry in source order; the
first unresolvable name raises NameError, otherwise the list of keys of
the constructed dict is produced. -/
def eval_dict_literal : List DictField → Except PyError (List String)
  | [] => .ok []
  | DictField.immediate k :: rest => do
    let ks ← eval_dict_literal rest
    pure (k :: ks)
  | DictField.nameRef k n :: rest =>
    if name_resolves n then do
      let ks ← eval_dict_literal rest
      pure (k :: ks)
    else .error (.nameError n)

/-- The filesystem-and-queue state one worker iteration acts on. -/
structure WorkerState where
  gpu_busy_flag : Bool
  queue_pending : Nat
  task_done_count : Nat
  staging : List String
  consume : List String
  sidecars : List (String × List String)
  work_dirs : List String
deriving DecidableEq

/-- External behaviour during one iteration: the per-page OCR result
(`llm_client.generate` returns a string and never raises, see C6). -/
structure WorkerWorld where
  ocr : Nat → String

/-- The page loop (ai_watchdog.py lines 297-306): one generate call per
page; an empty result becomes the sentinel marker (line 304). -/
def ocr_pages (w : WorkerWorld) (images : List String) : List String :=
  (List.range images.length).map (fun i =>
    let text := w.ocr i
    if text = "" then "[OCR FEHLER]" else text)

/-- The tail of a successful iteration (ai_watchdog.py lines 357-368):
remove the working directory of the job, mark the task done, and clear the
GPU-busy flag when the queue has drained. -/
def worker_tail (job : QueueItem) (s : WorkerState) : WorkerState :=
  let s1 := { s with work_dirs := s.work_dirs.filter (fun d => d ≠ job.work_dir) }
  let s2 := { s1 with task_done_count := s1.task_done_count + 1 }
  if s2.queue_pending = 0 then { s2 with gpu_busy_flag := false } else s2

/-- The try-block body of one worker iteration (ai_watchdog.py lines
284-368) on a dequeued job: set the flag, run the page loop, then either
the retroactive path (whose PATCH payload fails to resolve full_ai_text;
the inner except at lines 333-334 swallows the error, skipping the staged
file deletion of lines 329-330) or the standard path (whose sidecar dict
evaluation propagates its error to the outer except). -/
def gpu_worker_body (job : QueueItem) (w : WorkerWorld) (s0 : WorkerState) :
    WorkerState × Except PyError Unit :=
  let s1 := { s0 with gpu_busy_flag := true }
  let _page_texts := ocr_pages w job.b64_images
  match job.retro_doc_id with
  | some _doc_id =>
    let s2 :=
      match eval_dict_literal retro_patch_fields with
      | .error _ => s1
      | .ok _ =>
        { s1 with staging := s1.staging.filter (fun p => p ≠ job.staged_file) }
    (worker_tail job s2, .ok ())
  | none =>
    match eval_dict_literal sidecar_literal_fields with
    | .error e => (s1, .error e)
    | .ok fields =>
      let s2 := { s1 with
        sidecars := (job.uid ++ ".json", fields) :: s1.sidecars }
      let s3 := { s2 with
        staging := s2.staging.filter (fun p => p ≠ job.staged_file),
        consume := job.original_filename :: s2.consume }
      (worker_tail job s3, .ok ())

/-- The outer except of the worker loop (ai_watchdog.py lines 370-390):
clear the flag, remove the working directory of the job, move the staged file
(when still present) to the consume directory so the document is not lost,
and perform the task_done bookkeeping. -/
def gpu_worker_handle_error (job : QueueItem) (s : WorkerState) : WorkerState :=
  let s1 := { s with gpu_busy_flag := false }
  let s2 := { s1 with work_dirs := s1.work_dirs.filter (fun d => d ≠ job.work_dir) }
  let s3 :=
    if s2.staging.contains job.staged_file then
      { s2 with staging := s2.staging.filter (fun p => p ≠ job.staged_file),
                consume := job.original_filename :: s2.consume }
    else s2
  { s3 with task_done_count := s3.task_done_count + 1 }

/-- One full worker iteration on a dequeued job. -/
def gpu_worker_iteration (job : QueueItem) (w : WorkerWorld) (s0 : WorkerState) :
    WorkerState :=
  match gpu_worker_body job w s0 with
  | (s, .ok _) => s
  | (s, .error _) => gpu_worker_handle_error job s

/-- Concrete job, world and state for the worker witnesses. -/
def job0 : QueueItem :=
  { uid := "u1", original_filename := "scan.pdf", staged_file := "u1.pdf",
    work_dir := "wd1", b64_images := ["img"], has_duplicate_info := true,
    retro_doc_id := none }

def world0 : WorkerWorld := { ocr := fun _ => "text" }

def state0 : WorkerState :=
  { gpu_busy_flag := true, queue_pending := 0, task_done_count := 0,
    staging := ["u1.pdf"], consume := [], sidecars := [], work_dirs := ["wd1"] }

/-- C1: the sidecar dict literal of the standard path lists exactly the six
claimed fields, but its ai_content entry references the name full_ai_text,
which resolves neither among the locals of the worker nor among the module
globals; for every non-retroactive job the body therefore raises NameError
before any sidecar is written, so the claimed sidecar write and ordered
move never happen on the standard path — the staged file reaches the
consume directory only through the error handler, unenriched. -/
theorem gpu_worker_sidecar_name_error (job : QueueItem) (w : WorkerWorld)
    (s0 : WorkerState) (h : job.retro_doc_id = none) :
    sidecar_literal_fields.map (fun f => match f with
      | DictField.immediate k => k
      | DictField.nameRef k _ => k) =
      ["metadata", "duplicate_info", "ai_content", "scan_date",
       "original_filename", "uid"] ∧
    name_resolves "full_ai_text" = false ∧
    (gpu_worker_body job w s0).2 =
      Except.error (PyError.nameError "full_ai_text") ∧
    (gpu_worker_iteration job w s0).sidecars = s0.sidecars := by
  have he : eval_dict_literal sidecar_literal_fields =
      Except.error (PyError.nameError "full_ai_text") := rfl
  refine ⟨rfl, rfl, ?_, ?_⟩
  · simp [gpu_worker_body, h, he]
  · simp only [gpu_worker_iteration, gpu_worker_body, gpu_worker_handle_error, h, he]
    split <;> rfl

/-- Witness for C1 at a concrete job: the body raises NameError on
full_ai_text and no sidecar exists afterwards. -/
theorem gpu_worker_sidecar_name_error_witness :
    (gpu_worker_body job0 world0 state0).2 =
      Except.error (PyError.nameError "full_ai_text") ∧
    (gpu_worker_iteration job0 world0 state0).sidecars = [] := by
  have h := gpu_worker_sidecar_name_error job0 world0 state0 rfl
  exact ⟨h.2.2.1, h.2.2.2⟩

/-- C4: whenever the body of a worker iteration raises, the iteration still
finishes with the GPU-busy flag file absent, the working directory of the job
removed, the staged file no longer staged — moved to the consume directory
under its original filename when it was still present, so the document is
delivered unenriched rather than lost — and the per-queue task_done
bookkeeping performed exactly once. -/
theorem gpu_worker_error_cleanup (job : QueueItem) (w : WorkerWorld)
    (s0 : WorkerState) (e : PyError)
    (h : (gpu_worker_body job w s0).2 = Except.error e) :
    (gpu_worker_iteration job w s0).gpu_busy_flag = false ∧
    job.work_dir ∉ (gpu_worker_iteration job w s0).work_dirs ∧
    job.staged_file ∉ (gpu_worker_iteration job w s0).staging ∧
    (job.staged_file ∈ s0.staging →
      job.original_filename ∈ (gpu_worker_iteration job w s0).consume) ∧
    (gpu_worker_iteration job w s0).task_done_count = s0.task_done_count + 1 := by
  have he : eval_dict_literal sidecar_literal_fields =
      Except.error (PyError.nameError "full_ai_text") := rfl
  cases hr : job.retro_doc_id with
  | some d =>
    rw [gpu_worker_body] at h
    simp [hr] at h
  | none =>
    have hb : gpu_worker_body job w s0 =
        ({ s0 with gpu_busy_flag := true },
          Except.error (PyError.nameError "full_ai_text")) := by
      simp [gpu_worker_body, hr, he]
    simp only [gpu_worker_iteration, hb, gpu_worker_handle_error]
    by_cases hst : job.staged_file ∈ s0.staging
    · simp [hst, List.mem_filter]
    · simp [hst, List.mem_filter]

/-- Witness for C4 at a concrete job whose iteration raises: the flag is
clear, the working directory is gone, the document landed in consume, and
task_done fired. -/
theorem gpu_worker_error_cleanup_witness :
    (gpu_worker_iteration job0 world0 state0).gpu_busy_flag = false ∧
    "wd1" ∉ (gpu_worker_iteration job0 world0 state0).work_dirs ∧
    "scan.pdf" ∈ (gpu_worker_iteration job0 world0 state0).consume ∧
    (gpu_worker_iteration job0 world0 state0).task_done_count = 1 := by
  have h := gpu_worker_error_cleanup job0 world0 state0
    (PyError.nameError "full_ai_text") rfl
  exact ⟨h.1, h.2.1, h.2.2.2.1 (by simp [state0, job0]), h.2.2.2.2⟩

/- ──────────────── ai_watchdog.py: recover_staged_files ──────────────── -/

/-- An archived document as the backend reports it; whether its backing
file is physically on disk is part of the model so that the claim about
ghost/zombie handling can be stated — the recovery code never reads it. -/
structure ArchivedDoc where
  id : Nat
  title : String
  file_on_disk : Bool
deriving DecidableEq

/-- Environment of one recovery pass over one staged file: the backend
checksum lookup (`get_document_by_checksum`), and whether re-rendering the
pages of the staged file succeeds (lines 463-469), with the produced pages. -/
structure RecoveryWorld where
  get_document_by_checksum : String → Option ArchivedDoc
  rasterize_ok : Bool
  pages : List String

/-- A staged file found at startup: its filename stem (the uid it was
staged under) and its raw bytes. -/
structure StagedPdf where
  stem : String
  bytes : List Nat
deriving DecidableEq

/-- What the recovery loop does with one staged file. -/
inductive RecoveryAction where
  | deleted
  | enqueued (job : QueueItem)
  | moved_to_consume
deriving DecidableEq

/-- The fresh job built for a resumable staged file (ai_watchdog.py lines
454-477): the original name is lost, a generic recovered name is used. -/
def recovery_job (world : RecoveryWorld) (f : StagedPdf) : QueueItem :=
  { uid := f.stem,
    original_filename := "recovered_" ++ f.stem.take 8 ++ ".pdf",
    staged_file := f.stem ++ ".pdf",
    work_dir := "recovery_" ++ f.stem.take 8,
    b64_images := world.pages,
    has_duplicate_info := false,
    retro_doc_id := none }

/-- The per-file body of `recover_staged_files` (ai_watchdog.py lines
429-489): compute the MD5 of the file, ask the backend for a checksum match on
the filename-stem uid and on the recomputed MD5, delete the staged file on
any match (lines 439-450) — the physical file of the matched document is never
verified — otherwise re-render the pages and re-enqueue a fresh job
(lines 452-479), falling back to a direct move into the consume directory
when re-rendering fails (lines 481-489). -/
def recover_one (world : RecoveryWorld) (client_present : Bool)
    (f : StagedPdf) : RecoveryAction :=
  let uid := f.stem
  let actual_md5 := calculate_md5 f.bytes
  let ghost := client_present &&
    ((world.get_document_by_checksum uid).isSome ||
      (world.get_document_by_checksum actual_md5).isSome)
  if ghost then RecoveryAction.deleted
  else if world.rasterize_ok then RecoveryAction.enqueued (recovery_job world f)
  else RecoveryAction.moved_to_consume

/-- A backend containing a single zombie entry: it reports a checksum match
for uid "u1", but the backing file of the matched document is missing. -/
def zombieWorld : RecoveryWorld :=
  { get_document_by_checksum := fun c =>
      if c = "u1" then some { id := 5, title := "old scan", file_on_disk := false }
      else none,
    rasterize_ok := true,
    pages := ["page1"] }

def zombieFile : StagedPdf := { stem := "u1", bytes := [1, 2, 3] }

/-- C3 counterexample: at this concrete input the reported checksum match
is a zombie — its backing file is absent — yet recovery deletes the staged
file instead of re-enqueueing it, contrary to the claim that a staged file
is deleted exactly when the backing file of the match is verified present. -/
theorem recovery_deletes_zombie_counterexample :
    recover_one zombieWorld true zombieFile = RecoveryAction.deleted ∧
    zombieWorld.get_document_by_checksum zombieFile.stem =
      some { id := 5, title := "old scan", file_on_disk := false } ∧
    (zombieWorld.get_document_by_checksum zombieFile.stem).any
      (fun d => d.file_on_disk) = false := by
  refine ⟨rfl, rfl, rfl⟩

/-- C3 amended: during startup recovery a staged file is deleted exactly
when the backend reports a checksum match for the stem uid of the file or for
its recomputed MD5 — the physical backing file of the matched document is never
consulted, so zombie matches are deleted too — and when there is no match
the file is re-rasterized and re-enqueued as a fresh job, or moved
straight to the consume directory if re-rasterization fails. -/
theorem recover_one_spec (world : RecoveryWorld) (f : StagedPdf) :
    (recover_one world true f = RecoveryAction.deleted ↔
      ((world.get_document_by_checksum f.stem).isSome = true ∨
        (world.get_document_by_checksum (calculate_md5 f.bytes)).isSome = true)) ∧
    (¬ ((world.get_document_by_checksum f.stem).isSome = true ∨
        (world.get_document_by_checksum (calculate_md5 f.bytes)).isSome = true) →
      (world.rasterize_ok = true →
        recover_one world true f =
          RecoveryAction.enqueued (recovery_job world f)) ∧
      (world.rasterize_ok = false →
        recover_one world true f = RecoveryAction.moved_to_consume)) := by
  constructor
  · constructor
    · intro hd
      by_contra hno
      push_neg at hno
      have h1 : (world.get_document_by_checksum f.stem).isSome = false := by
        cases hx : (world.get_document_by_checksum f.stem).isSome
        · rfl
        · exact absurd hx hno.1
      have h2 : (world.get_document_by_checksum
          (calculate_md5 f.bytes)).isSome = false := by
        cases hx : (world.get_document_by_checksum
            (calculate_md5 f.bytes)).isSome
        · rfl
        · exact absurd hx hno.2
      rw [recover_one] at hd
      cases hrast : world.rasterize_ok <;> simp [h1, h2, hrast] at hd
    · intro hm
      rw [recover_one]
      rcases hm with hm | hm <;> simp [hm]
  · intro hno
    push_neg at hno
    have h1 : (world.get_document_by_checksum f.stem).isSome = false := by
      cases hx : (world.get_document_by_checksum f.stem).isSome
      · rfl
      · exact absurd hx hno.1
    have h2 : (world.get_document_by_checksum
        (calculate_md5 f.bytes)).isSome = false := by
      cases hx : (world.get_document_by_checksum (calculate_md5 f.bytes)).isSome
      · rfl
      · exact absurd hx hno.2
    constructor
    · intro hr
      rw [recover_one]
      simp [h1, h2, hr]
    · intro hr
      rw [recover_one]
      simp [h1, h2, hr]

/-- A backend with no entry at all: every staged file is resumable. -/
def emptyBackend : RecoveryWorld :=
  { get_document_by_checksum := fun _ => none,
    rasterize_ok := true, pages := ["page1"] }

/-- Witness for the amended C3 at concrete inputs: with a matching entry the
file is deleted; with no match and working rasterization it is re-enqueued. -/
theorem recover_one_spec_witness :
    recover_one zombieWorld true zombieFile = RecoveryAction.deleted ∧
    recover_one emptyBackend true zombieFile =
      RecoveryAction.enqueued (recovery_job emptyBackend zombieFile) := by
  have hz := (recover_one_spec zombieWorld zombieFile).1.mpr (Or.inl rfl)
  have he := ((recover_one_spec emptyBackend zombieFile).2 (by simp [emptyBackend])).1 rfl
  exact ⟨hz, he⟩
